import Mathlib

/-!
Verification of the FastCast channel facade
(src/SmartViewSDKCastVideo_WebApp_TV/MultiScreenPlayer/js/fastcast.js).

The module is a callback-routing facade over the Samsung MultiScreen SDK.
We shallowly embed its data model and the operations the specification
talks about: JavaScript values are an inductive `JSVal`, the mutable
module-level variables (`maxClients`, `forbiddenClients`,
`allowingAllClients`, `videoId`, the channel client list, the key table
and the undeclared `keycode` global) form a `State`, and each handler is
a function `State -> JSVal -> Except JSError (State × List Effect)`:
a JavaScript exception (TypeError on a null property read,
ReferenceError on an undeclared variable read) is `Except.error`, and
every externally visible action (channel publish, platform volume/mute
call, DOM event dispatch, user-callback invocation) is recorded as an
`Effect`.

External collaborators are modelled as parameters: `JSON.parse` of the
host runtime is a parameter `parse : String -> Option JSVal` (`none`
models the parse throwing, which the dispatcher catches), and the
user-registered connect callback is an `Option (Client -> JSVal)`
(`none` models no registered function).
-/

namespace FastCast

/-- A JavaScript value, as far as this module manipulates them:
null, undefined, booleans, (integer) numbers, strings and plain objects
(association lists of fields, first binding wins on lookup). The file
only ever deals in integral numbers, so numbers are `Int`. -/
inductive JSVal where
  | null
  | undefined
  | bool (b : Bool)
  | num (n : Int)
  | str (s : String)
  | obj (fields : List (String × JSVal))

/-- A JavaScript runtime exception: a TypeError (reading a property of
null/undefined) or a ReferenceError (reading an undeclared variable). -/
inductive JSError where
  | typeError (msg : String)
  | refError (msg : String)

/-- Message of the TypeError thrown by `null.k`. -/
def nullReadMsg (k : String) : String :=
  "Cannot read property " ++ k ++ " of null"

/-- Message of the TypeError thrown by `undefined.k`. -/
def undefReadMsg (k : String) : String :=
  "Cannot read property " ++ k ++ " of undefined"

/-- First binding of `k` in an object field list. -/
def lookupField : List (String × JSVal) → String → Option JSVal
  | [], _ => none
  | (a, v) :: rest, k => if a = k then some v else lookupField rest k

/-- Object field read defaulting to undefined, as JavaScript does. -/
def jsLookup (fields : List (String × JSVal)) (k : String) : JSVal :=
  (lookupField fields k).getD .undefined

/-- JavaScript property read `v.k`: throws a TypeError on null and
undefined, yields the field (or undefined) on objects, and yields
undefined on the other primitives (none of the keys this module reads
exist on boxed primitives). -/
def getField : JSVal → String → Except JSError JSVal
  | .null, k => .error (.typeError (nullReadMsg k))
  | .undefined, k => .error (.typeError (undefReadMsg k))
  | .obj fields, k => .ok (jsLookup fields k)
  | _, _ => .ok .undefined

/-- JavaScript truthiness (the `Int` model has no NaN). -/
def truthy : JSVal → Bool
  | .null => false
  | .undefined => false
  | .bool b => b
  | .num n => decide (n ≠ 0)
  | .str s => decide (s ≠ "")
  | .obj _ => true

/-- JavaScript `typeof` (recall `typeof null` is "object"). -/
def typeofStr : JSVal → String
  | .null => "object"
  | .undefined => "undefined"
  | .bool _ => "boolean"
  | .num _ => "number"
  | .str _ => "string"
  | .obj _ => "object"

/-- JavaScript string coercion of a value used as a property key. -/
def toPropKey : JSVal → String
  | .null => "null"
  | .undefined => "undefined"
  | .bool true => "true"
  | .bool false => "false"
  | .num n => toString n
  | .str s => s
  | .obj _ => "[object Object]"

/-- Leading decimal digit run of a character list, as a number;
`none` when there is no leading digit (parseInt would give NaN). -/
def parseDigits (cs : List Char) : Option Nat :=
  let ds := cs.takeWhile Char.isDigit
  if ds.isEmpty then none
  else some (ds.foldl (fun a ch => a * 10 + (ch.toNat - 48)) 0)

/-- Source `parseInt(s, 10)`: skip leading whitespace, optional sign
(codepoint 45 is the minus sign, 43 the plus sign), then the leading
digit run; `none` models NaN. -/
def parseIntStr (s : String) : Option Int :=
  let cs := s.data.dropWhile Char.isWhitespace
  match cs with
  | [] => none
  | c :: rest =>
    if c.toNat = 45 then (parseDigits rest).map (fun n => -(n : Int))
    else if c.toNat = 43 then (parseDigits rest).map (fun n => (n : Int))
    else (parseDigits (c :: rest)).map (fun n => (n : Int))

/-- Source `parseInt(v, 10)` on an arbitrary value: numbers parse to
themselves, strings through `parseIntStr`, everything else (whose
string coercion has no leading digit) is NaN. -/
def parseIntJS : JSVal → Option Int
  | .num n => some n
  | .str s => parseIntStr s
  | _ => none

/-- Source `Math.abs` on the integer model. -/
def jabs (n : Int) : Int := if n < 0 then -n else n

/-- A channel client as the SDK delivers it (fastcast.js reads only
`id` and `isHost`). -/
structure Client where
  id : String
  isHost : Bool

/-- An externally visible action of the facade. -/
inductive Effect where
  /-- Source `channel.publish(event, data?, clientId?)` via `send`.
  `data = none` models the argument being absent. -/
  | publish (event : String) (data : Option JSVal) (clientId : Option String)
  /-- Source `tizen.tvaudiocontrol.setVolume(v)`. -/
  | setVolume (v : Int)
  /-- Source `tizen.tvaudiocontrol.setMute(m)`. -/
  | setMute (m : Bool)
  /-- Source `document.dispatchEvent(new CustomEvent(name, {detail}))`;
  a CustomEvent built with no detail carries `null`. -/
  | domEvent (name : String) (detail : JSVal)
  /-- Source `sendKeydownEvent(keyCode)`: the synthetic key-press injected at
  the event bus (or active element). -/
  | keydownEvent (keyCode : JSVal)
  /-- Invocation of the user-registered connect callback. -/
  | connectCallback (clientId : String)
  /-- Invocation of the user-registered disconnect callback. -/
  | disconnectCallback (clientId : String)

/-- The mutable module-level state of fastcast.js (lines 15-48),
together with the channel client list the SDK maintains and the
undeclared global `keycode` that `onKeydown` leaks (absent until the
first assignment; reading it before that is a ReferenceError). -/
structure State where
  maxClients : Int
  forbiddenClients : List String
  allowingAllClients : Bool
  videoId : JSVal
  clients : List Client
  tvKeys : List (String × Int)
  keycodeG : Option JSVal

/-- The five seed entries of `tvKeys` (lines 18-24); the startup loop
extends the table with platform-reported keys, so theorems leave
`State.tvKeys` arbitrary. -/
def tvKeys0 : List (String × Int) :=
  [("ArrowDown", 40), ("ArrowUp", 38), ("ArrowLeft", 37),
   ("ArrowRight", 39), ("Enter", 13)]

/-- The module state right after load, with the host itself on the
channel (the host joins when `channel.connect` succeeds):
`maxClients = 2`, empty deny-list, `allowingAllClients = false`,
`videoId = -1`. -/
def initialState : State :=
  { maxClients := 2
    forbiddenClients := []
    allowingAllClients := false
    videoId := .num (-1)
    clients := [⟨"host", true⟩]
    tvKeys := tvKeys0
    keycodeG := none }

/-- Source `send(event, data?, clientId?)` (lines 551-553) forwards verbatim
to `channel.publish`. -/
def send (event : String) (data : Option JSVal) (clientId : Option String) :
    Effect :=
  .publish event data clientId

/-- The `send("ready")` status broadcast. -/
def sendReady : Effect := send "ready" none none

/-- The message table of `raiseError` (lines 353-356); an unlisted code
would read as undefined. -/
def raiseErrorMessage (code : Int) : JSVal :=
  if code = 403 then .str "Access denied"
  else if code = 500 then .str "Internal error"
  else .undefined

/-- Source `raiseError(code, clientId)` (lines 351-358): sends an "error"
message `{message, code}` to one client. -/
def raiseError (code : Int) (clientId : String) : Effect :=
  send "error"
    (some (.obj [("message", raiseErrorMessage code), ("code", .num code)]))
    (some clientId)

/-- The `errors` table (lines 37-48). -/
def errors : List JSVal :=
  [ .obj [("message", .str "Not connected"), ("code", .num 500)],
    .obj [("message", .str "Seek failed"), ("code", .num 500)],
    .obj [("message", .str "No such stream"), ("code", .num 404)] ]

/-- Positional array read, 0-based. -/
def arrayIndexAux : List JSVal → Nat → JSVal
  | [], _ => .undefined
  | x :: _, 0 => x
  | _ :: xs, n + 1 => arrayIndexAux xs n

/-- JavaScript array indexing `a[n]` by an integer: undefined when out
of range (in particular for negative indices). -/
def arrayIndex (a : List JSVal) (n : Int) : JSVal :=
  if 0 ≤ n then arrayIndexAux a n.toNat else .undefined

/-- Source `error(type)` (lines 59-69): a string becomes
`{message: type, code: 9999}`; a number indexes the `errors` table and
reads `.message` and `.code` off the entry (which throws when the index
is outside the table, since `errors[type]` is then undefined); any
other value is broadcast as-is. -/
def error (ty : JSVal) : Except JSError (List Effect) :=
  match ty with
  | .str s =>
      .ok [send "error" (some (.obj [("message", .str s), ("code", .num 9999)])) none]
  | .num n =>
      match getField (arrayIndex errors n) "message" with
      | .error e => .error e
      | .ok m =>
        match getField (arrayIndex errors n) "code" with
        | .error e => .error e
        | .ok c => .ok [send "error" (some (.obj [("message", m), ("code", c)])) none]
  | v => .ok [send "error" (some v) none]

/-- Source `isClientAllowed(client)` (lines 119-124): true exactly when the
client id is not on the deny-list (`forbiddenClients.indexOf(id) < 0`
is membership failure). -/
def isClientAllowed (st : State) (client : Client) : Bool :=
  if (st.forbiddenClients.contains client.id) = false then true else false

/-- Value of `tvKeys[k]` for a property key coerced from `kc`. -/
def tvKeyVal (keys : List (String × Int)) (kc : JSVal) : JSVal :=
  match lookupKey keys (toPropKey kc) with
  | some n => .num n
  | none => .undefined
where
  lookupKey : List (String × Int) → String → Option Int
    | [], _ => none
    | (a, b) :: rest, k => if a = k then some b else lookupKey rest k

/-- Source `onKeydown(parsed)` (lines 244-253). Reading `parsed.keycode` off a
null payload throws. The handler assigns the undeclared global
`keycode` when the table lookup is truthy or the incoming keycode is a
number, then injects `sendKeydownEvent(keycode)`; when neither branch
assigned, it reads whatever the global held before (ReferenceError if
it was never assigned). -/
def onKeydown (st : State) (parsed : JSVal) :
    Except JSError (State × List Effect) :=
  match getField parsed "keycode" with
  | .error e => .error e
  | .ok kc =>
    if truthy kc then
      if truthy (tvKeyVal st.tvKeys kc) then
        .ok ({st with keycodeG := some (tvKeyVal st.tvKeys kc)},
          [.keydownEvent (tvKeyVal st.tvKeys kc)])
      else if typeofStr kc = "number" then
        .ok ({st with keycodeG := some kc}, [.keydownEvent kc])
      else
        match st.keycodeG with
        | some v => .ok (st, [.keydownEvent v])
        | none => .error (.refError "keycode is not defined")
    else .ok (st, [])

/-- Source `onSeek(parsed)` (lines 292-298): emits `ms2:seek {position}` only
when `parsed.position` is truthy (so a position of exactly 0 emits
nothing); reading the field off a null payload throws. -/
def onSeek (st : State) (parsed : JSVal) :
    Except JSError (State × List Effect) :=
  match getField parsed "position" with
  | .error e => .error e
  | .ok pos =>
    if truthy pos then
      .ok (st, [.domEvent "ms2:seek" (.obj [("position", pos)])])
    else .ok (st, [])

/-- Source `onVolume(parsed)` (lines 265-280): parses `parsed.value` with
`parseInt(-, 10)`; NaN is ignored; otherwise the sign becomes the mute
flag, the absolute value the level, applied to the platform controls
and announced as `ms2:volume {volume, isMute}`. -/
def onVolume (st : State) (parsed : JSVal) :
    Except JSError (State × List Effect) :=
  match getField parsed "value" with
  | .error e => .error e
  | .ok v =>
    match parseIntJS v with
    | none => .ok (st, [])
    | some n =>
      .ok (st,
        [.setVolume (jabs n), .setMute (decide (n < 0)),
         .domEvent "ms2:volume"
           (.obj [("volume", .num (jabs n)), ("isMute", .bool (decide (n < 0)))])])

/-- Source `onPlay(parsed)` (lines 312-326): requires truthy `parsed.videoId`;
stores it as the current video id and emits
`ms2:play {videoId, position, data?}` (data only when present). -/
def onPlay (st : State) (parsed : JSVal) :
    Except JSError (State × List Effect) :=
  match getField parsed "videoId" with
  | .error e => .error e
  | .ok vid =>
    if truthy vid then
      match getField parsed "position" with
      | .error e => .error e
      | .ok pos =>
        match getField parsed "data" with
        | .error e => .error e
        | .ok dat =>
          .ok ({st with videoId := vid},
            [.domEvent "ms2:play"
              (if truthy dat then
                .obj [("videoId", vid), ("position", pos), ("data", dat)]
              else
                .obj [("videoId", vid), ("position", pos)])])
    else .ok (st, [])

/-- Source `onReclaim(parsed)` (lines 336-340): unconditionally emits a
detail-less `ms2:reclaim`. -/
def onReclaim (st : State) (_parsed : JSVal) :
    Except JSError (State × List Effect) :=
  .ok (st, [.domEvent "ms2:reclaim" .null])

/-- The keys of the `eventCallbacks` table (lines 30-36), in insertion
order. -/
def protocolEvents : List String :=
  ["keydown", "seek", "volume", "play", "reclaim"]

/-- Source `typeof eventCallbacks[event] === "function"`: the table binds
exactly the five protocol events. -/
def hasEventCallback (event : String) : Bool :=
  protocolEvents.contains event

/-- Source `eventCallbacks[event](parsed)`: runs the handler the table binds
to `event` (only reached under `hasEventCallback`). -/
def runEventCallback (event : String) (st : State) (parsed : JSVal) :
    Except JSError (State × List Effect) :=
  if event = "keydown" then onKeydown st parsed
  else if event = "seek" then onSeek st parsed
  else if event = "volume" then onVolume st parsed
  else if event = "play" then onPlay st parsed
  else if event = "reclaim" then onReclaim st parsed
  else .ok (st, [])

/-- Payload normalization inside the dispatcher closure (lines
369-387): `parsed` starts as null; a string payload is JSON-parsed with
the exception swallowed (so an unparseable string leaves null); any
other payload is passed through. `parse` is the JSON.parse of the host
runtime, with `none` modelling a parse exception. -/
def parsePayload (parse : String → Option JSVal) (obj : JSVal) : JSVal :=
  match obj with
  | .str s => (parse s).getD .null
  | v => v

/-- Source `dispatch(event)` applied to an inbound message (lines 368-390):
500 to the sender when no handler is bound, 403 to the sender when the
client is deny-listed and `allowingAllClients` is false, otherwise the
bound handler runs on the normalized payload. -/
def dispatch (parse : String → Option JSVal) (event : String) (st : State)
    (obj : JSVal) (client : Client) : Except JSError (State × List Effect) :=
  if hasEventCallback event = false then
    .ok (st, [raiseError 500 client.id])
  else if (!(isClientAllowed st client) && !st.allowingAllClients) = true then
    .ok (st, [raiseError 403 client.id])
  else
    runEventCallback event st (parsePayload parse obj)

/-- Source `onClientConnect(client)` (lines 183-209): always broadcasts
"ready" first. Over capacity (`channel.clients.length > maxClients`)
the client gets a 403 and its id is appended to the deny-list;
otherwise its id is spliced out of the deny-list if present (splice at
the found index removes the first occurrence, hence `List.erase`), the
user connect callback runs if registered, and a truthy return value
becomes the current video id. -/
def onClientConnect (st : State) (cb : Option (Client → JSVal))
    (client : Client) : State × List Effect :=
  if (st.clients.length : Int) > st.maxClients then
    ({st with forbiddenClients := st.forbiddenClients ++ [client.id]},
      [sendReady, raiseError 403 client.id])
  else
    let st1 := {st with forbiddenClients := st.forbiddenClients.erase client.id}
    match cb with
    | some f =>
      if truthy (f client) then
        ({st1 with videoId := f client}, [sendReady, .connectCallback client.id])
      else (st1, [sendReady, .connectCallback client.id])
    | none => (st1, [sendReady])

/-- Source `onClientDisconnect(client)` (lines 161-170): clears the whole
deny-list when the client count it observes (the SDK has already
removed the leaver) is at most `maxClients`; then runs the user
disconnect callback if registered. -/
def onClientDisconnect (st : State) (cbRegistered : Bool) (client : Client) :
    State × List Effect :=
  (if (st.clients.length : Int) ≤ st.maxClients then
    {st with forbiddenClients := []}
   else st,
   if cbRegistered then [.disconnectCallback client.id] else [])

/-- A clientConnect SDK event: the SDK adds the joining client to
`channel.clients` before emitting, so the handler sees it in the list
(consistently, `onChannelConnect` at lines 142-149 synthesizes
clientConnect emissions for clients already present in the list). -/
def clientConnectEvent (st : State) (cb : Option (Client → JSVal))
    (client : Client) : State × List Effect :=
  onClientConnect {st with clients := st.clients ++ [client]} cb client

/-- The admission part of `connect(prop, maximumClients)` (lines
407-425): a numeric first argument overwrites the second; a negative
count turns on `allowingAllClients`, a non-negative one stores
`count + 1` (the host occupies a slot). The connection-property
normalization, handler registration, `channel.connect` call and
visibility wiring that follow touch none of this state. -/
def connect (st : State) (prop : JSVal) (maximumClients : JSVal) : State :=
  let mc := if typeofStr prop = "number" then prop else maximumClients
  match mc with
  | .num m =>
    if m < 0 then {st with allowingAllClients := true}
    else {st with maxClients := m + 1}
  | _ => st

/-- The restricted names of `on` (lines 620-626): the
`eventCallbacks` keys plus the four generic lifecycle events. -/
def restrictedEvents : List String :=
  protocolEvents ++ ["connect", "disconnect", "clientConnect", "clientDisconnect"]

/-- What a handler bound by `on` is: the supplied function, or the
logging no-op substituted when the argument is not a function. -/
inductive BoundHandler where
  | user
  | loggingNoop

/-- Observable outcome of `on`: whether it returned false (it returns
undefined on the success path), and what got bound on the channel. -/
structure OnResult where
  returnedFalse : Bool
  bound : Option (String × BoundHandler)

/-- The source function named on, `on(eventName, callback)` (lines
620-633) — the name on is taken by notation in Mathlib, hence
`onRegister`. Restricted names are rejected (returns false, nothing
bound); otherwise the callback (or a logging no-op when it is not a
function) is bound on the channel. -/
def onRegister (eventName : String) (callbackIsFunction : Bool) : OnResult :=
  if restrictedEvents.contains eventName then ⟨true, none⟩
  else if callbackIsFunction then ⟨false, some (eventName, .user)⟩
  else ⟨false, some (eventName, .loggingNoop)⟩

/-- A JSON.parse model on which every string fails to parse (the
dispatcher then sees the swallowed exception and a null `parsed`). In
any JavaScript engine `JSON.parse "oops"` throws, so this instantiates
the unparseable-payload situation at concrete inputs. -/
def parseNever : String → Option JSVal := fun _ => none

/-- A JSON.parse model for the concrete wire payload of the volume
example: every string parses to the object a JSON engine yields for
the text `\x7b"value":"-30"\x7d`. -/
def parseVolume30 : String → Option JSVal :=
  fun _ => some (.obj [("value", .str "-30")])

/-- A JSON.parse model for the concrete wire payload of the seek
quirk example: every string parses to the object a JSON engine yields
for the text `\x7b"position":0\x7d`. -/
def parseSeek0 : String → Option JSVal :=
  fun _ => some (.obj [("position", .num 0)])

/-- State right after `FastCast.connect(\x7b\x7d, -1)` from the initial
state. -/
def c2State1 : State := connect initialState (.obj []) (.num (-1))

/-- First client to join after `connect(\x7b\x7d, -1)`. -/
def c2Step1 : State × List Effect :=
  clientConnectEvent c2State1 none ⟨"clientA", false⟩

/-- Second client to join after `connect(\x7b\x7d, -1)`. -/
def c2Step2 : State × List Effect :=
  clientConnectEvent c2Step1.1 none ⟨"clientB", false⟩

/-- State right after `FastCast.connect(\x7b\x7d, 1)` from the initial
state. -/
def c3State1 : State := connect initialState (.obj []) (.num 1)

/-- First non-host client to join after `connect(\x7b\x7d, 1)`. -/
def c3Step1 : State × List Effect :=
  clientConnectEvent c3State1 none ⟨"clientA", false⟩

/-- Second non-host client to join after `connect(\x7b\x7d, 1)`. -/
def c3Step2 : State × List Effect :=
  clientConnectEvent c3Step1.1 none ⟨"clientB", false⟩

/-- When a handler is bound and the admission condition of the
dispatcher is false, the dispatcher runs the bound handler on the
normalized payload. -/
theorem dispatch_allowed (parse : String → Option JSVal) (event : String)
    (st : State) (obj : JSVal) (c : Client)
    (hev : hasEventCallback event = true)
    (hallow : (!(isClientAllowed st c) && !st.allowingAllClients) = false) :
    dispatch parse event st obj c =
      runEventCallback event st (parsePayload parse obj) := by
  unfold dispatch
  rw [hev, hallow]
  simp

/-- Over capacity, `onClientConnect` broadcasts "ready", sends the 403
and appends the client id to the deny-list, and does nothing else. -/
theorem onClientConnect_denied (st : State) (cb : Option (Client → JSVal))
    (c : Client) (h : (st.clients.length : Int) > st.maxClients) :
    onClientConnect st cb c =
      ({st with forbiddenClients := st.forbiddenClients ++ [c.id]},
       [sendReady, raiseError 403 c.id]) := by
  unfold onClientConnect
  rw [if_pos h]

/-- Within capacity, `onClientConnect` erases the client id from the
deny-list, leaves the client list, the capacity and the allow-all flag
alone, and emits no error (only "ready" plus possibly the user
callback invocation). -/
theorem onClientConnect_admitted (st : State) (cb : Option (Client → JSVal))
    (c : Client) (h : ¬((st.clients.length : Int) > st.maxClients)) :
    (onClientConnect st cb c).1.forbiddenClients = st.forbiddenClients.erase c.id
    ∧ (onClientConnect st cb c).1.clients = st.clients
    ∧ (onClientConnect st cb c).1.maxClients = st.maxClients
    ∧ (onClientConnect st cb c).1.allowingAllClients = st.allowingAllClients
    ∧ ((onClientConnect st cb c).2 = [sendReady]
       ∨ (onClientConnect st cb c).2 = [sendReady, Effect.connectCallback c.id]) := by
  unfold onClientConnect
  rw [if_neg h]
  cases cb with
  | none => exact ⟨rfl, rfl, rfl, rfl, Or.inl rfl⟩
  | some f =>
    dsimp only
    by_cases ht : truthy (f c) = true
    · simp [if_pos ht]
    · simp [if_neg ht]

/-- Erasing one element from a list of at least two leaves it
nonempty. -/
theorem erase_ne_nil_of_two_le {l : List String} (h : 2 ≤ l.length)
    (a : String) : l.erase a ≠ [] := by
  match l, h with
  | x :: y :: t, _ =>
    rw [List.erase_cons]
    split
    · simp
    · simp

/-- Source `onKeydown` never touches the deny-list. -/
theorem onKeydown_preserves_forbidden (st : State) (parsed : JSVal)
    (st2 : State) (effs : List Effect)
    (h : onKeydown st parsed = .ok (st2, effs)) :
    st2.forbiddenClients = st.forbiddenClients := by
  unfold onKeydown at h
  split at h
  · exact Except.noConfusion h
  · split at h
    · split at h
      · simp only [Except.ok.injEq, Prod.mk.injEq] at h
        obtain ⟨rfl, -⟩ := h
        rfl
      · split at h
        · simp only [Except.ok.injEq, Prod.mk.injEq] at h
          obtain ⟨rfl, -⟩ := h
          rfl
        · split at h
          · simp only [Except.ok.injEq, Prod.mk.injEq] at h
            obtain ⟨rfl, -⟩ := h
            rfl
          · exact Except.noConfusion h
    · simp only [Except.ok.injEq, Prod.mk.injEq] at h
      obtain ⟨rfl, -⟩ := h
      rfl

/-- Source `onSeek` never touches the state at all. -/
theorem onSeek_state (st : State) (parsed : JSVal)
    (st2 : State) (effs : List Effect)
    (h : onSeek st parsed = .ok (st2, effs)) : st2 = st := by
  unfold onSeek at h
  split at h
  · exact Except.noConfusion h
  · split at h <;>
      (simp only [Except.ok.injEq, Prod.mk.injEq] at h; exact h.1.symm)

/-- Source `onVolume` never touches the state at all. -/
theorem onVolume_state (st : State) (parsed : JSVal)
    (st2 : State) (effs : List Effect)
    (h : onVolume st parsed = .ok (st2, effs)) : st2 = st := by
  unfold onVolume at h
  split at h
  · exact Except.noConfusion h
  · split at h <;>
      (simp only [Except.ok.injEq, Prod.mk.injEq] at h; exact h.1.symm)

/-- Source `onPlay` never touches the deny-list. -/
theorem onPlay_preserves_forbidden (st : State) (parsed : JSVal)
    (st2 : State) (effs : List Effect)
    (h : onPlay st parsed = .ok (st2, effs)) :
    st2.forbiddenClients = st.forbiddenClients := by
  unfold onPlay at h
  split at h
  · exact Except.noConfusion h
  · split at h
    · split at h
      · exact Except.noConfusion h
      · split at h
        · exact Except.noConfusion h
        · simp only [Except.ok.injEq, Prod.mk.injEq] at h
          obtain ⟨rfl, -⟩ := h
          rfl
    · simp only [Except.ok.injEq, Prod.mk.injEq] at h
      obtain ⟨rfl, -⟩ := h
      rfl

/-- Every bound protocol handler leaves the deny-list alone. -/
theorem runEventCallback_preserves_forbidden (event : String) (st : State)
    (parsed : JSVal) (st2 : State) (effs : List Effect)
    (h : runEventCallback event st parsed = .ok (st2, effs)) :
    st2.forbiddenClients = st.forbiddenClients := by
  unfold runEventCallback at h
  split at h
  · exact onKeydown_preserves_forbidden st parsed st2 effs h
  · split at h
    · rw [onSeek_state st parsed st2 effs h]
    · split at h
      · rw [onVolume_state st parsed st2 effs h]
      · split at h
        · exact onPlay_preserves_forbidden st parsed st2 effs h
        · split at h
          · unfold onReclaim at h
            simp only [Except.ok.injEq, Prod.mk.injEq] at h
            obtain ⟨rfl, -⟩ := h
            rfl
          · simp only [Except.ok.injEq, Prod.mk.injEq] at h
            obtain ⟨rfl, -⟩ := h
            rfl

/-- The dispatcher leaves the deny-list alone whenever it returns
normally. -/
theorem dispatch_preserves_forbidden (parse : String → Option JSVal)
    (event : String) (st : State) (obj : JSVal) (c : Client)
    (st2 : State) (effs : List Effect)
    (h : dispatch parse event st obj c = .ok (st2, effs)) :
    st2.forbiddenClients = st.forbiddenClients := by
  unfold dispatch at h
  split at h
  · simp only [Except.ok.injEq, Prod.mk.injEq] at h
    obtain ⟨rfl, -⟩ := h
    rfl
  · split at h
    · simp only [Except.ok.injEq, Prod.mk.injEq] at h
      obtain ⟨rfl, -⟩ := h
      rfl
    · exact runEventCallback_preserves_forbidden event st
        (parsePayload parse obj) st2 effs h

/-- Claim C1, as stated, is false: for an inbound seek message whose
string payload is not parseable JSON, from a sender that passes the
allow check, the dispatcher swallows the parse failure but the bound
handler then reads `.position` off the null payload and throws a
TypeError — it does not no-op without an exception. -/
theorem C1_counterexample :
    dispatch parseNever "seek" initialState (.str "oops") ⟨"c1", false⟩ =
      .error (.typeError (nullReadMsg "position")) := rfl

/-- Claim C1 amended: for every inbound protocol message whose string
payload fails to parse and whose sender passes the allow check, the
dispatcher swallows the parse failure and invokes the bound handler on
the null payload; the reclaim handler then no-ops (one detail-less
`ms2:reclaim`), but the keydown, seek, volume and play handlers each
throw a TypeError reading their guard field off null. -/
theorem C1_corrected (parse : String → Option JSVal) (s : String)
    (st : State) (c : Client) (hs : parse s = none)
    (hallow : (!(isClientAllowed st c) && !st.allowingAllClients) = false) :
    dispatch parse "keydown" st (.str s) c =
      .error (.typeError (nullReadMsg "keycode"))
    ∧ dispatch parse "seek" st (.str s) c =
      .error (.typeError (nullReadMsg "position"))
    ∧ dispatch parse "volume" st (.str s) c =
      .error (.typeError (nullReadMsg "value"))
    ∧ dispatch parse "play" st (.str s) c =
      .error (.typeError (nullReadMsg "videoId"))
    ∧ dispatch parse "reclaim" st (.str s) c =
      .ok (st, [.domEvent "ms2:reclaim" .null]) := by
  have hpp : parsePayload parse (.str s) = JSVal.null := by
    show (parse s).getD JSVal.null = JSVal.null
    rw [hs]
    rfl
  refine ⟨?_, ?_, ?_, ?_, ?_⟩
  · rw [dispatch_allowed parse "keydown" st (.str s) c rfl hallow, hpp]
    rfl
  · rw [dispatch_allowed parse "seek" st (.str s) c rfl hallow, hpp]
    rfl
  · rw [dispatch_allowed parse "volume" st (.str s) c rfl hallow, hpp]
    rfl
  · rw [dispatch_allowed parse "play" st (.str s) c rfl hallow, hpp]
    rfl
  · rw [dispatch_allowed parse "reclaim" st (.str s) c rfl hallow, hpp]
    rfl

/-- Witness for C1_corrected at a concrete unparseable payload. -/
theorem C1_corrected_witness :
    dispatch parseNever "volume" initialState (.str "oops") ⟨"w1", false⟩ =
      .error (.typeError (nullReadMsg "value")) :=
  (C1_corrected parseNever "oops" initialState ⟨"w1", false⟩ rfl rfl).2.2.1

/-- Claim C2, as stated, is false: after `connect(\x7b\x7d, -1)` the
allow-all flag is on, yet a subsequent clientConnect event (the second
client here, with the stored `maxClients` still 2) is still answered
with an access-denied 403 and its id is still added to the deny-list,
because `onClientConnect` never consults `allowingAllClients`. -/
theorem C2_counterexample :
    c2State1.allowingAllClients = true
    ∧ c2Step2.2 = [sendReady, raiseError 403 "clientB"]
    ∧ c2Step2.1.forbiddenClients = ["clientB"] :=
  ⟨rfl, rfl, rfl⟩

/-- Claim C2 amended: `connect(\x7b\x7d, m)` with `m < 0` only turns on
`allowingAllClients` (stored capacity and deny-list untouched); while
that flag is on, every protocol message from every client — including
deny-listed ones — passes the allow check and reaches the bound
handler (no admission 403 from the dispatcher). However clientConnect
events are not exempted: over capacity they still send a 403 and
append the id to the deny-list. -/
theorem C2_corrected :
    (∀ (st : State) (fields : List (String × JSVal)) (m : Int), m < 0 →
      connect st (.obj fields) (.num m) = {st with allowingAllClients := true})
    ∧ (∀ (parse : String → Option JSVal) (event : String) (st : State)
        (obj : JSVal) (c : Client),
        st.allowingAllClients = true → hasEventCallback event = true →
        dispatch parse event st obj c =
          runEventCallback event st (parsePayload parse obj))
    ∧ (∀ (st : State) (cb : Option (Client → JSVal)) (c : Client),
        (st.clients.length : Int) > st.maxClients →
        onClientConnect st cb c =
          ({st with forbiddenClients := st.forbiddenClients ++ [c.id]},
           [sendReady, raiseError 403 c.id])) := by
  refine ⟨?_, ?_, ?_⟩
  · intro st fields m hm
    have hred : connect st (.obj fields) (.num m) =
        (if m < 0 then {st with allowingAllClients := true}
         else {st with maxClients := m + 1}) := rfl
    rw [hred, if_pos hm]
  · intro parse event st obj c hAll hev
    refine dispatch_allowed parse event st obj c hev ?_
    rw [hAll]
    simp
  · intro st cb c h
    exact onClientConnect_denied st cb c h

/-- Witness for C2_corrected at concrete inputs: the connect call, a
dispatch from a deny-listed client under allow-all, and an
over-capacity clientConnect. -/
theorem C2_corrected_witness :
    connect initialState (.obj []) (.num (-1)) =
      {initialState with allowingAllClients := true}
    ∧ dispatch parseNever "play"
        {initialState with
          allowingAllClients := true,
          forbiddenClients := ["denied"]} (.str "x") ⟨"denied", false⟩ =
      runEventCallback "play"
        {initialState with
          allowingAllClients := true,
          forbiddenClients := ["denied"]}
        (parsePayload parseNever (.str "x"))
    ∧ onClientConnect
        {initialState with
          clients := [⟨"host", true⟩, ⟨"a", false⟩, ⟨"b", false⟩]}
        none ⟨"b", false⟩ =
      ({initialState with
          clients := [⟨"host", true⟩, ⟨"a", false⟩, ⟨"b", false⟩],
          forbiddenClients := ["b"]},
       [sendReady, raiseError 403 "b"]) :=
  ⟨C2_corrected.1 initialState [] (-1) (by norm_num),
   C2_corrected.2.1 parseNever "play" _ (.str "x") ⟨"denied", false⟩ rfl rfl,
   C2_corrected.2.2 _ none ⟨"b", false⟩ (by decide)⟩

/-- Claim C3, as stated, is false: after `connect(\x7b\x7d, 1)` the
stored `maxClients` is 2, but — the host already holding one slot in
`channel.clients` — it is the SECOND non-host client, not the third,
that is the first to receive the access-denied 403 and be
deny-listed. -/
theorem C3_counterexample :
    c3State1.maxClients = 2
    ∧ c3Step1.2 = [sendReady]
    ∧ c3Step1.1.forbiddenClients = []
    ∧ c3Step2.2 = [sendReady, raiseError 403 "clientB"]
    ∧ c3Step2.1.forbiddenClients = ["clientB"] :=
  ⟨rfl, rfl, rfl, rfl, rfl⟩

/-- Claim C3 amended: `connect(\x7b\x7d, 1)` stores `maxClients = 2`
(requested + 1, the host counting as one slot); starting from a state
with one connected client (the host) and an empty deny-list, the first
non-host client to connect is admitted (no 403, deny-list stays
empty), and the second non-host client to connect is the first one
that receives the access-denied 403 and has its id added to the
deny-list. -/
theorem C3_corrected (st : State) (cb : Option (Client → JSVal))
    (c1 c2 : Client) (hmax : st.maxClients = 2)
    (hlen : st.clients.length = 1) (hforb : st.forbiddenClients = []) :
    (∀ st2 : State, (connect st2 (.obj []) (.num 1)).maxClients = 2)
    ∧ raiseError 403 c1.id ∉ (clientConnectEvent st cb c1).2
    ∧ (clientConnectEvent st cb c1).1.forbiddenClients = []
    ∧ (clientConnectEvent (clientConnectEvent st cb c1).1 cb c2).2 =
        [sendReady, raiseError 403 c2.id]
    ∧ (clientConnectEvent (clientConnectEvent st cb c1).1 cb c2).1.forbiddenClients =
        [c2.id] := by
  have hnot : ¬((({st with clients := st.clients ++ [c1]}).clients.length : Int) >
      ({st with clients := st.clients ++ [c1]}).maxClients) := by
    show ¬(((st.clients ++ [c1]).length : Int) > st.maxClients)
    rw [hmax]
    simp [List.length_append, hlen]
  obtain ⟨ha1, ha2, ha3, -, ha5⟩ :=
    onClientConnect_admitted {st with clients := st.clients ++ [c1]} cb c1 hnot
  have hstep1forb : (clientConnectEvent st cb c1).1.forbiddenClients = [] := by
    show (onClientConnect {st with clients := st.clients ++ [c1]}
      cb c1).1.forbiddenClients = []
    rw [ha1]
    show st.forbiddenClients.erase c1.id = []
    rw [hforb]
    rfl
  have hstep1clients : (clientConnectEvent st cb c1).1.clients =
      st.clients ++ [c1] := ha2
  have hstep1max : (clientConnectEvent st cb c1).1.maxClients = 2 := by
    show (onClientConnect {st with clients := st.clients ++ [c1]}
      cb c1).1.maxClients = 2
    rw [ha3]
    exact hmax
  have hover : ((({(clientConnectEvent st cb c1).1 with
      clients := (clientConnectEvent st cb c1).1.clients ++ [c2]}).clients.length : Int) >
      ({(clientConnectEvent st cb c1).1 with
      clients := (clientConnectEvent st cb c1).1.clients ++ [c2]}).maxClients) := by
    show ((((clientConnectEvent st cb c1).1.clients ++ [c2]).length : Int) >
      (clientConnectEvent st cb c1).1.maxClients)
    rw [hstep1clients, hstep1max]
    simp [List.length_append, hlen]
  have hden := onClientConnect_denied
    {(clientConnectEvent st cb c1).1 with
      clients := (clientConnectEvent st cb c1).1.clients ++ [c2]} cb c2 hover
  refine ⟨?_, ?_, hstep1forb, ?_, ?_⟩
  · intro st2
    rfl
  · intro hmem
    have hmem2 : raiseError 403 c1.id ∈
        (onClientConnect {st with clients := st.clients ++ [c1]} cb c1).2 := hmem
    rcases ha5 with h5 | h5
    · rw [h5] at hmem2
      rcases List.mem_singleton.mp hmem2 with heq
      injection heq with h1 h2 h3
      exact absurd h1 (by decide)
    · rw [h5] at hmem2
      rcases List.mem_cons.mp hmem2 with heq | hmem3
      · injection heq with h1 h2 h3
        exact absurd h1 (by decide)
      · rcases List.mem_singleton.mp hmem3 with heq
        exact Effect.noConfusion heq
  · exact congrArg (fun p => p.2) hden
  · have h1 : (clientConnectEvent (clientConnectEvent st cb c1).1 cb c2).1.forbiddenClients
        = (clientConnectEvent st cb c1).1.forbiddenClients ++ [c2.id] :=
      congrArg (fun p => p.1.forbiddenClients) hden
    rw [hstep1forb] at h1
    simpa using h1

/-- Witness for C3_corrected from the initial state. -/
theorem C3_corrected_witness :
    (clientConnectEvent (clientConnectEvent initialState none ⟨"wa", false⟩).1
      none ⟨"wb", false⟩).2 = [sendReady, raiseError 403 "wb"] :=
  (C3_corrected initialState none ⟨"wa", false⟩ ⟨"wb", false⟩
    rfl rfl rfl).2.2.2.1

/-- Claim C4: while `allowingAllClients` is false, every protocol
message dispatched from a deny-listed client id is answered with a 403
error to that client, the state is unchanged and the bound handler is
never invoked (the result consists of the single 403 publish). The
statement quantifies over every state whose deny-list contains the id,
so it holds for as long as the id stays on the list. -/
theorem C4_denylisted_rejected (parse : String → Option JSVal)
    (event : String) (st : State) (obj : JSVal) (c : Client)
    (hev : hasEventCallback event = true)
    (hAll : st.allowingAllClients = false)
    (hDenied : st.forbiddenClients.contains c.id = true) :
    dispatch parse event st obj c = .ok (st, [raiseError 403 c.id]) := by
  have hca : isClientAllowed st c = false := by
    unfold isClientAllowed
    rw [hDenied]
    rfl
  unfold dispatch
  rw [hev, hca, hAll]
  simp

/-- Witness for C4_denylisted_rejected at a concrete deny-listed
client. -/
theorem C4_denylisted_rejected_witness :
    dispatch parseNever "keydown"
      {initialState with forbiddenClients := ["bad"]} (.str "x")
      ⟨"bad", false⟩ =
    .ok ({initialState with forbiddenClients := ["bad"]},
      [raiseError 403 "bad"]) :=
  C4_denylisted_rejected parseNever "keydown" _ (.str "x") ⟨"bad", false⟩
    rfl rfl rfl

/-- Claim C5: the deny-list is wholesale-cleared exactly by a
client-disconnect event that observes a connected-client count at most
`maxClients` (a disconnect observing a larger count leaves it
unchanged, componentwise stated as one if-then-else equation); no
other operation empties it wholesale: a clientConnect event on a
deny-list of two or more entries leaves it nonempty (it only appends
one id or erases one id), `connect` leaves it untouched, and the
protocol-message dispatcher leaves it untouched whenever it returns. -/
theorem C5_deny_list_clearing :
    (∀ (st : State) (cbRegistered : Bool) (c : Client),
      (onClientDisconnect st cbRegistered c).1.forbiddenClients =
        if (st.clients.length : Int) ≤ st.maxClients then []
        else st.forbiddenClients)
    ∧ (∀ (st : State) (cb : Option (Client → JSVal)) (c : Client),
        2 ≤ st.forbiddenClients.length →
        (onClientConnect st cb c).1.forbiddenClients ≠ [])
    ∧ (∀ (st : State) (prop mc : JSVal),
        (connect st prop mc).forbiddenClients = st.forbiddenClients)
    ∧ (∀ (parse : String → Option JSVal) (event : String) (st : State)
        (obj : JSVal) (c : Client) (st2 : State) (effs : List Effect),
        dispatch parse event st obj c = .ok (st2, effs) →
        st2.forbiddenClients = st.forbiddenClients) := by
  refine ⟨?_, ?_, ?_, ?_⟩
  · intro st cbR c
    have hred : (onClientDisconnect st cbR c).1 =
        (if (st.clients.length : Int) ≤ st.maxClients then
          {st with forbiddenClients := []} else st) := rfl
    rw [hred]
    by_cases hc : (st.clients.length : Int) ≤ st.maxClients
    · rw [if_pos hc, if_pos hc]
    · rw [if_neg hc, if_neg hc]
  · intro st cb c h2
    by_cases hover : (st.clients.length : Int) > st.maxClients
    · rw [onClientConnect_denied st cb c hover]
      simp
    · obtain ⟨ha1, -, -, -, -⟩ := onClientConnect_admitted st cb c hover
      rw [ha1]
      exact erase_ne_nil_of_two_le h2 c.id
  · intro st prop mc
    unfold connect
    dsimp only
    split
    · split
      · rfl
      · rfl
    · rfl
  · intro parse event st obj c st2 effs h
    exact dispatch_preserves_forbidden parse event st obj c st2 effs h

/-- Witness for C5_deny_list_clearing: a disconnect observing count 1
with capacity 2 clears a two-entry deny-list; a clientConnect on a
two-entry deny-list leaves it nonempty; `connect` and a dispatched
reclaim leave the deny-list untouched. -/
theorem C5_deny_list_clearing_witness :
    (onClientDisconnect {initialState with forbiddenClients := ["a", "b"]}
      false ⟨"a", false⟩).1.forbiddenClients = []
    ∧ (onClientConnect {initialState with forbiddenClients := ["a", "b"]}
        none ⟨"a", false⟩).1.forbiddenClients ≠ []
    ∧ (connect initialState (.obj []) (.num 5)).forbiddenClients = []
    ∧ initialState.forbiddenClients = initialState.forbiddenClients := by
  refine ⟨?_, ?_, ?_, ?_⟩
  · have h := C5_deny_list_clearing.1
      {initialState with forbiddenClients := ["a", "b"]} false ⟨"a", false⟩
    simpa using h
  · exact C5_deny_list_clearing.2.1 _ none ⟨"a", false⟩ (by decide)
  · exact C5_deny_list_clearing.2.2.1 initialState (.obj []) (.num 5)
  · exact C5_deny_list_clearing.2.2.2 parseNever "reclaim" initialState
      (.str "x") ⟨"c", false⟩ initialState
      [Effect.domEvent "ms2:reclaim" JSVal.null] rfl

/-- Claim C6, as stated, is false: the public error operation throws a
TypeError for a number outside the three-entry table — `error(3)`
reads `.message` off `errors[3]`, which is undefined — rather than
broadcasting without exception for every argument value. -/
theorem C6_counterexample :
    error (.num 3) = .error (.typeError (undefReadMsg "message")) := rfl

/-- A numeric argument outside the `errors` table makes `error` throw:
the table read is undefined and `.message` on it is a TypeError. -/
theorem error_num_out_of_table (n : Int) (h : arrayIndex errors n = .undefined) :
    error (.num n) = .error (.typeError (undefReadMsg "message")) := by
  unfold error
  dsimp only
  rw [h]
  rfl

/-- Claim C6 amended: a string argument broadcasts
`\x7bmessage, code: 9999\x7d`; a number argument 0, 1 or 2 broadcasts
the corresponding fixed table entry (Not connected/500, Seek
failed/500, No such stream/404); any OTHER number raises a TypeError
(the table read is undefined) instead of broadcasting; every
non-string non-number value is broadcast as-is without exception. -/
theorem C6_corrected :
    (∀ s : String, error (.str s) =
      .ok [send "error"
        (some (.obj [("message", .str s), ("code", .num 9999)])) none])
    ∧ error (.num 0) = .ok [send "error"
        (some (.obj [("message", .str "Not connected"), ("code", .num 500)])) none]
    ∧ error (.num 1) = .ok [send "error"
        (some (.obj [("message", .str "Seek failed"), ("code", .num 500)])) none]
    ∧ error (.num 2) = .ok [send "error"
        (some (.obj [("message", .str "No such stream"), ("code", .num 404)])) none]
    ∧ (∀ n : Int, n < 0 ∨ 3 ≤ n →
        error (.num n) = .error (.typeError (undefReadMsg "message")))
    ∧ error .null = .ok [send "error" (some .null) none]
    ∧ error .undefined = .ok [send "error" (some .undefined) none]
    ∧ (∀ b : Bool, error (.bool b) = .ok [send "error" (some (.bool b)) none])
    ∧ (∀ fs : List (String × JSVal), error (.obj fs) =
        .ok [send "error" (some (.obj fs)) none]) := by
  refine ⟨fun s => rfl, rfl, rfl, rfl, ?_, rfl, rfl, fun b => rfl, fun fs => rfl⟩
  intro n hn
  have ha : arrayIndex errors n = .undefined := by
    rcases hn with hn | hn
    · unfold arrayIndex
      rw [if_neg (by omega)]
    · unfold arrayIndex
      rw [if_pos (by omega)]
      obtain ⟨k, hk⟩ : ∃ k, n.toNat = k + 3 := ⟨n.toNat - 3, by omega⟩
      rw [hk]
      rfl
  exact error_num_out_of_table n ha

/-- Witness for C6_corrected: a string, an out-of-table number, a
boolean and an object argument. -/
theorem C6_corrected_witness :
    error (.str "boom") = .ok [send "error"
      (some (.obj [("message", .str "boom"), ("code", .num 9999)])) none]
    ∧ error (.num 5) = .error (.typeError (undefReadMsg "message"))
    ∧ error (.bool true) = .ok [send "error" (some (.bool true)) none]
    ∧ error (.obj [("code", .str "E1")]) =
        .ok [send "error" (some (.obj [("code", .str "E1")])) none] :=
  ⟨C6_corrected.1 "boom",
   C6_corrected.2.2.2.2.1 5 (Or.inr (by norm_num)),
   C6_corrected.2.2.2.2.2.2.2.1 true,
   C6_corrected.2.2.2.2.2.2.2.2 [("code", .str "E1")]⟩

/-- Claim C7: for an inbound volume message from an admitted client
whose payload normalizes to an object, the value field is parsed as an
integer; a non-numeric value produces no effect at all, and a numeric
value n yields exactly the platform volume call at level n.natAbs, the
platform mute call with flag n less than 0, and one ms2:volume
notification carrying that same level and flag. -/
theorem C7_volume (parse : String → Option JSVal) (st : State) (c : Client)
    (obj : JSVal) (fields : List (String × JSVal))
    (hallow : (!(isClientAllowed st c) && !st.allowingAllClients) = false)
    (hparsed : parsePayload parse obj = .obj fields) :
    (parseIntJS (jsLookup fields "value") = none →
      dispatch parse "volume" st obj c = .ok (st, []))
    ∧ (∀ n : Int, parseIntJS (jsLookup fields "value") = some n →
      dispatch parse "volume" st obj c =
        .ok (st, [.setVolume (jabs n), .setMute (decide (n < 0)),
          .domEvent "ms2:volume"
            (.obj [("volume", .num (jabs n)),
                   ("isMute", .bool (decide (n < 0)))])])) := by
  have hd : dispatch parse "volume" st obj c = onVolume st (.obj fields) := by
    rw [dispatch_allowed parse "volume" st obj c rfl hallow, hparsed]
    rfl
  have hov : onVolume st (.obj fields) =
      (match parseIntJS (jsLookup fields "value") with
       | none => Except.ok (st, [])
       | some n => Except.ok (st,
          [.setVolume (jabs n), .setMute (decide (n < 0)),
           .domEvent "ms2:volume"
             (.obj [("volume", .num (jabs n)),
                    ("isMute", .bool (decide (n < 0)))])])) := rfl
  constructor
  · intro hnone
    rw [hd, hov, hnone]
  · intro n hsome
    rw [hd, hov, hsome]

/-- Witness for C7_volume at the wire payload of the spec example:
value "-30" becomes volume 30 with the mute flag on. -/
theorem C7_volume_witness :
    dispatch parseVolume30 "volume" initialState (.str "payload")
      ⟨"w7", false⟩ =
    .ok (initialState, [.setVolume 30, .setMute true,
      .domEvent "ms2:volume"
        (.obj [("volume", .num 30), ("isMute", .bool true)])]) :=
  (C7_volume parseVolume30 initialState ⟨"w7", false⟩ (.str "payload")
    [("value", .str "-30")] rfl rfl).2 (-30) rfl

/-- Claim C8: for an inbound seek message from an admitted client
whose payload normalizes to an object, one ms2:seek notification
carrying the position is emitted exactly when the position field is
truthy — in particular a position of exactly 0 (or any falsy value)
emits nothing. -/
theorem C8_seek (parse : String → Option JSVal) (st : State) (c : Client)
    (obj : JSVal) (fields : List (String × JSVal))
    (hallow : (!(isClientAllowed st c) && !st.allowingAllClients) = false)
    (hparsed : parsePayload parse obj = .obj fields) :
    dispatch parse "seek" st obj c =
      .ok (st,
        if truthy (jsLookup fields "position") = true then
          [.domEvent "ms2:seek"
            (.obj [("position", jsLookup fields "position")])]
        else []) := by
  rw [dispatch_allowed parse "seek" st obj c rfl hallow, hparsed]
  show onSeek st (.obj fields) = _
  have hos : onSeek st (.obj fields) =
      (if truthy (jsLookup fields "position") = true then
        Except.ok (st, [.domEvent "ms2:seek"
          (.obj [("position", jsLookup fields "position")])])
       else Except.ok (st, [])) := rfl
  rw [hos]
  by_cases ht : truthy (jsLookup fields "position") = true
  · rw [if_pos ht, if_pos ht]
  · rw [if_neg ht, if_neg ht]

/-- Witness for C8_seek at the wire payload of the falsy-position
quirk: position 0 emits nothing. -/
theorem C8_seek_witness :
    dispatch parseSeek0 "seek" initialState (.str "payload") ⟨"w8", false⟩ =
      .ok (initialState, []) :=
  C8_seek parseSeek0 initialState ⟨"w8", false⟩ (.str "payload")
    [("position", .num 0)] rfl rfl

/-- Claim C9: the reserved names are exactly the five protocol names
plus connect, disconnect, clientConnect and clientDisconnect; the
public registration operation answers every reserved name with false
and binds nothing, and binds the supplied handler for every other
name, substituting the logging no-op when the handler argument is not
a function. -/
theorem C9_on_registration :
    restrictedEvents = ["keydown", "seek", "volume", "play", "reclaim",
      "connect", "disconnect", "clientConnect", "clientDisconnect"]
    ∧ (∀ (e : String) (b : Bool), restrictedEvents.contains e = true →
        onRegister e b = ⟨true, none⟩)
    ∧ (∀ e : String, restrictedEvents.contains e = false →
        onRegister e true = ⟨false, some (e, .user)⟩
        ∧ onRegister e false = ⟨false, some (e, .loggingNoop)⟩) := by
  refine ⟨rfl, ?_, ?_⟩
  · intro e b h
    unfold onRegister
    rw [h]
    rfl
  · intro e h
    constructor
    · unfold onRegister
      rw [h]
      rfl
    · unfold onRegister
      rw [h]
      rfl

/-- Witness for C9_on_registration: registering "play" is rejected;
a custom name binds the handler, or the logging no-op when no function
is supplied. -/
theorem C9_on_registration_witness :
    onRegister "play" true = ⟨true, none⟩
    ∧ onRegister "myMessage" true = ⟨false, some ("myMessage", .user)⟩
    ∧ onRegister "myMessage" false =
        ⟨false, some ("myMessage", .loggingNoop)⟩ :=
  ⟨C9_on_registration.2.1 "play" true rfl,
   (C9_on_registration.2.2 "myMessage" rfl).1,
   (C9_on_registration.2.2 "myMessage" rfl).2⟩

/-- Claim C10: when a client connects while the count exceeds
maxClients (allowingAllClients off), the handler emits exactly the
"ready" broadcast and the 403 to that client and appends the id to the
deny-list; the user connect callback is not invoked, and the video id
and the earlier deny-list entries are untouched. -/
theorem C10_overlimit_connect (st : State) (cb : Option (Client → JSVal))
    (c : Client) (_hAll : st.allowingAllClients = false)
    (hover : (st.clients.length : Int) > st.maxClients) :
    onClientConnect st cb c =
      ({st with forbiddenClients := st.forbiddenClients ++ [c.id]},
       [sendReady, raiseError 403 c.id])
    ∧ (onClientConnect st cb c).1.videoId = st.videoId
    ∧ (∀ x : String, Effect.connectCallback x ∉ (onClientConnect st cb c).2) := by
  have h := onClientConnect_denied st cb c hover
  refine ⟨h, ?_, ?_⟩
  · rw [h]
  · intro x hmem
    rw [h] at hmem
    rcases List.mem_cons.mp hmem with heq | hmem2
    · exact Effect.noConfusion heq
    · rcases List.mem_singleton.mp hmem2 with heq
      exact Effect.noConfusion heq

/-- Witness for C10_overlimit_connect: a third connected client with
capacity 2. -/
theorem C10_overlimit_connect_witness :
    onClientConnect {initialState with
      clients := [⟨"host", true⟩, ⟨"wa", false⟩, ⟨"wb", false⟩]}
      none ⟨"wb", false⟩ =
    ({initialState with
      clients := [⟨"host", true⟩, ⟨"wa", false⟩, ⟨"wb", false⟩],
      forbiddenClients := ["wb"]},
     [sendReady, raiseError 403 "wb"]) :=
  (C10_overlimit_connect _ none ⟨"wb", false⟩ rfl (by decide)).1

end FastCast
